import Mathlib

/-!
Formal model of the byte-stream machinery of the rescue-boat firmware:
the interrupt-fed circular byte queue (Serial.c), the UBX GPS frame
state machine (Gps.c), and the MAVLink acknowledgment bookkeeping
(Mavlink.c).  Machine integers are modelled as Nat or Int, with explicit
reduction modulo 256 where the source stores a value in a uint8_t
variable.  All definitions come first; the theorems that check the
specification claims against them follow.
-/

/-! ## Definitions: ByteQueue, the circular buffer of Serial.c -/

/-- Pointwise update of a function, used to model array stores. -/
def updFn (f : Nat → Nat) (i v : Nat) : Nat → Nat :=
  fun j => if j = i then v else f j

/-- The CircBuffer struct of Serial.c.  The byte array is a function
from indices to byte values; head, tail, size are the int fields and
overflowCount is the uint8_t counter (kept below 256 by every update). -/
structure CircBuffer where
  buffer : Nat → Nat
  head : Nat
  tail : Nat
  size : Nat
  overflowCount : Nat

/-- QUEUESIZE from Serial.c. -/
def QUEUESIZE : Nat := 512

/-- newCircBuffer from Serial.c: zeroed storage, head = tail = 0,
size = QUEUESIZE, overflowCount = 0. -/
def newCircBuffer : CircBuffer :=
  { buffer := fun _ => 0, head := 0, tail := 0, size := QUEUESIZE, overflowCount := 0 }

/-- getLength from Serial.c: the number of unread bytes. -/
def getLength (cB : CircBuffer) : Nat :=
  if cB.head ≤ cB.tail then cB.tail - cB.head else cB.size + cB.tail - cB.head

/-- peak from Serial.c: non-destructive read of the byte at head,
0 when the buffer is empty. -/
def peak (cB : CircBuffer) : Nat :=
  if getLength cB > 0 then cB.buffer cB.head else 0

/-- readFront from Serial.c: returns the byte at head and advances head
modulo size; on an empty buffer it returns the sentinel value 128 and
leaves the buffer untouched. -/
def readFront (cB : CircBuffer) : Nat × CircBuffer :=
  if getLength cB > 0 then
    (cB.buffer cB.head,
      { cB with head := if cB.head < cB.size - 1 then cB.head + 1 else 0 })
  else
    (128, cB)

/-- writeBack from Serial.c: when the buffer is full (length = size - 1)
it increments the uint8_t overflow counter and drops the byte, otherwise
it stores the byte at tail and advances tail modulo size.  The returned
first component is the function return value, which in the source is 0
on every path with a non-null buffer. -/
def writeBack (cB : CircBuffer) (data : Nat) : Nat × CircBuffer :=
  if getLength cB = cB.size - 1 then
    (0, { cB with overflowCount := (cB.overflowCount + 1) % 256 })
  else
    (0, { cB with
            buffer := updFn cB.buffer cB.tail data,
            tail := if cB.tail < cB.size - 1 then cB.tail + 1 else 0 })

/-- makeEmpty from Serial.c: zeroes the storage and resets head, tail
and the overflow counter. -/
def makeEmpty (cB : CircBuffer) : CircBuffer :=
  { cB with buffer := fun _ => 0, head := 0, tail := 0, overflowCount := 0 }

/-- getOverflow from Serial.c. -/
def getOverflow (cB : CircBuffer) : Nat :=
  cB.overflowCount

/-- Iterated pop: applies readFront n times, keeping only the state. -/
def popIter : Nat → CircBuffer → CircBuffer
  | 0, q => q
  | n + 1, q => popIter n (readFront q).2

/-- Pushes a whole list of bytes, in order, with writeBack. -/
def pushAll (bs : List Nat) (q : CircBuffer) : CircBuffer :=
  bs.foldl (fun q b => (writeBack q b).2) q

/-- A concrete full queue: head = 0, tail = 511, so length = 511 = size - 1. -/
def fullQueue : CircBuffer :=
  { buffer := fun _ => 0, head := 0, tail := 511, size := QUEUESIZE, overflowCount := 0 }

/-- One queue operation: a push of a byte or a pop. -/
inductive Op where
  | push (b : Nat) : Op
  | pop : Op

/-- Runs a sequence of operations on a queue; returns the final queue
and the list of bytes returned by the pops, in order. -/
def runOps : CircBuffer → List Op → CircBuffer × List Nat
  | q, [] => (q, [])
  | q, Op.push b :: rest => runOps (writeBack q b).2 rest
  | q, Op.pop :: rest =>
      ((runOps (readFront q).2 rest).1,
        (readFront q).1 :: (runOps (readFront q).2 rest).2)

/-- Checks that, starting from n buffered bytes, every pop hits a
non-empty queue and the buffered count never exceeds QUEUESIZE - 1. -/
def legalOps : Nat → List Op → Bool
  | _, [] => true
  | n, Op.push _ :: rest => decide (n + 1 ≤ QUEUESIZE - 1) && legalOps (n + 1) rest
  | n, Op.pop :: rest => decide (0 < n) && legalOps (n - 1) rest

/-- The bytes pushed by a sequence of operations, in order. -/
def pushedBytes : List Op → List Nat
  | [] => []
  | Op.push b :: rest => b :: pushedBytes rest
  | Op.pop :: rest => pushedBytes rest

/-- The number of pops in a sequence of operations. -/
def popCount : List Op → Nat
  | [] => 0
  | Op.push _ :: rest => popCount rest
  | Op.pop :: rest => popCount rest + 1

/-- List indexing with default 0, used to relate the circular storage
to the abstract list of buffered bytes. -/
def nthByte : List Nat → Nat → Nat
  | [], _ => 0
  | b :: _, 0 => b
  | _ :: t, i + 1 => nthByte t i

/-- The simulation invariant: the queue q holds exactly the bytes of l,
in order, starting at head, with no overflow recorded. -/
def Rinv (q : CircBuffer) (l : List Nat) : Prop :=
  q.size = QUEUESIZE ∧ q.head < QUEUESIZE ∧
    q.tail = (q.head + l.length) % QUEUESIZE ∧ l.length ≤ QUEUESIZE - 1 ∧
    q.overflowCount = 0 ∧
    ∀ i, i < l.length → q.buffer ((q.head + i) % QUEUESIZE) = nthByte l i

/-! ## Definitions: UbxFrameParser, the GPS state machine of Gps.c -/

/-- Field index definitions from Gps.c. -/
def SYNC1_INDEX : Nat := 0

def SYNC2_INDEX : Nat := 1

def CLASS_INDEX : Nat := 2

def ID_INDEX : Nat := 3

def LENGTH1_INDEX : Nat := 4

def LENGTH2_INDEX : Nat := 5

def PAYLOAD_INDEX : Nat := 6

def CHECKSUM_BYTES : Nat := 2

def SYNC1_CHAR : Nat := 0xB5

def SYNC2_CHAR : Nat := 0x62

def NAV_CLASS : Nat := 0x01

def NAV_POSLLH_ID : Nat := 0x02

def NAV_STATUS_ID : Nat := 0x03

def NAV_VELOCITY_ID : Nat := 0x12

def NOFIX_STATUS : Nat := 0x00

/-- The parser states of Gps.c. -/
inductive PState where
  | idle : PState
  | read : PState
  | parse : PState
deriving DecidableEq

/-- The geodetic position record of Gps.c (int32 fields). -/
structure Geodetic where
  latitude : Int
  longitude : Int
  altitude : Int
deriving DecidableEq

/-- The velocity record of Gps.c (int32 fields). -/
structure Velocity where
  north : Int
  east : Int
deriving DecidableEq

/-- The error-correction offsets of Gps.c (int32 fields). -/
structure ErrorCorr where
  latitude : Int
  longitude : Int
deriving DecidableEq

/-- The whole mutable state of Gps.c, plus the stream of bytes still
waiting in the inbound UART queue (each byte a value below 256, since
the hardware delivers uint8_t values).  byteIndex and messageLength are
uint8_t in the source, so every update reduces them modulo 256. -/
structure GpsState where
  input : List Nat
  state : PState
  rawMessage : Nat → Nat
  byteIndex : Nat
  messageLength : Nat
  messageClass : Nat
  messageId : Nat
  gpsStatus : Nat
  hasNewMessage : Bool
  isConnected : Bool
  isUsingError : Bool
  hasPosition : Bool
  heading : Int
  geodetic : Geodetic
  velocity : Velocity
  error : ErrorCorr

/-- hasNewByte from Gps.c: the inbound queue is not empty. -/
def hasNewByte (s : GpsState) : Bool :=
  !s.input.isEmpty

/-- setConnected from Gps.c.  The 5-second timeout timer it starts
lives in the external Timer module; expiry enters the model as the
timerExpired argument of GPS_runSM. -/
def setConnected (s : GpsState) : GpsState :=
  { s with isConnected := true }

/-- startIdleState from Gps.c. -/
def startIdleState (s : GpsState) : GpsState :=
  { s with state := PState.idle }

/-- startReadState from Gps.c. -/
def startReadState (s : GpsState) : GpsState :=
  { s with state := PState.read, byteIndex := 0,
           messageLength := PAYLOAD_INDEX, hasNewMessage := false }

/-- startParseState from Gps.c. -/
def startParseState (s : GpsState) : GpsState :=
  { s with state := PState.parse, byteIndex := PAYLOAD_INDEX }

/-- The uint8_t increment of byteIndex at the end of readMessageByte. -/
def bumpIndex (s : GpsState) : GpsState :=
  { s with byteIndex := (s.byteIndex + 1) % 256 }

/-- Twos-complement reading of a 32-bit value, for the int32_t casts
in Gps.c. -/
def toInt32 (n : Nat) : Int :=
  if n % 4294967296 < 2147483648 then (n % 4294967296 : Int)
  else (n % 4294967296 : Int) - 4294967296

/-- The little-endian 4-byte load at byteIndex used by the payload
decoder of Gps.c. -/
def decode32 (s : GpsState) : Int :=
  toInt32 (s.rawMessage s.byteIndex + s.rawMessage (s.byteIndex + 1) * 256 +
    s.rawMessage (s.byteIndex + 2) * 65536 + s.rawMessage (s.byteIndex + 3) * 16777216)

/-- readMessageByte from Gps.c: pops one byte from the UART stream into
rawMessage and interprets it according to the current byteIndex.  The
Bool result is true for SUCCESS and false for FAILURE.  At index 5 the
source adds the high length byte shifted left by 8 and then the header
and checksum sizes to the uint8_t messageLength, so the whole update is
reduced modulo 256. -/
def readMessageByte (s : GpsState) : Bool × GpsState :=
  match s.input with
  | [] => (false, s)
  | c :: rest =>
    if s.hasNewMessage then (false, s)
    else
      let s1 := { s with input := rest, rawMessage := updFn s.rawMessage s.byteIndex c }
      match s1.byteIndex with
      | 0 => if c = SYNC1_CHAR then (true, bumpIndex s1) else (false, s1)
      | 1 =>
        if c = SYNC2_CHAR then (true, bumpIndex (setConnected s1)) else (false, s1)
      | 2 => (true, bumpIndex { s1 with messageClass := c })
      | 3 => (true, bumpIndex { s1 with messageId := c })
      | 4 => (true, bumpIndex { s1 with messageLength := c % 256 })
      | 5 =>
        (true, bumpIndex { s1 with
          messageLength :=
            (s1.messageLength + c * 256 + PAYLOAD_INDEX + CHECKSUM_BYTES) % 256 })
      | _ =>
        if s1.byteIndex ≥ s1.messageLength - 1 then
          (true, bumpIndex { s1 with hasNewMessage := true })
        else (true, bumpIndex s1)

/-- Cursor advance by a 4-byte field (uint8_t arithmetic). -/
def skip4 (s : GpsState) : GpsState :=
  { s with byteIndex := (s.byteIndex + 4) % 256 }

/-- Cursor advance by a 1-byte field (uint8_t arithmetic). -/
def skip1 (s : GpsState) : GpsState :=
  { s with byteIndex := (s.byteIndex + 1) % 256 }

/-- parsePayloadField from Gps.c: dispatch on message class, message id
and the payload offset byteIndex - PAYLOAD_INDEX.  The offset is
computed in int arithmetic in the source, so it is an Int here; at
offset 28 of the velocity message the source case falls through into
the offset-32 case, advancing the cursor by 8.  Unknown classes and ids
jump the cursor to messageLength; unmatched offsets leave the state
unchanged. -/
def parsePayloadField (s : GpsState) : GpsState :=
  if s.messageClass = NAV_CLASS then
    if s.messageId = NAV_POSLLH_ID then
      let ofs : Int := (s.byteIndex : Int) - (PAYLOAD_INDEX : Int)
      if ofs = 0 then skip4 s
      else if ofs = 4 then
        { s with geodetic := { s.geodetic with longitude := decode32 s },
                 byteIndex := (s.byteIndex + 4) % 256 }
      else if ofs = 8 then
        { s with geodetic := { s.geodetic with latitude := decode32 s },
                 byteIndex := (s.byteIndex + 4) % 256 }
      else if ofs = 12 then skip4 s
      else if ofs = 16 then
        { s with geodetic := { s.geodetic with altitude := decode32 s },
                 hasPosition := true, byteIndex := (s.byteIndex + 4) % 256 }
      else if ofs = 20 then skip4 s
      else if ofs = 24 then skip4 s
      else s
    else if s.messageId = NAV_STATUS_ID then
      let ofs : Int := (s.byteIndex : Int) - (PAYLOAD_INDEX : Int)
      if ofs = 0 then skip4 s
      else if ofs = 4 then
        { s with gpsStatus := s.rawMessage s.byteIndex,
                 byteIndex := (s.byteIndex + 1) % 256 }
      else if ofs = 5 then skip1 s
      else if ofs = 6 then skip1 s
      else if ofs = 7 then skip1 s
      else if ofs = 8 then skip4 s
      else if ofs = 12 then skip4 s
      else s
    else if s.messageId = NAV_VELOCITY_ID then
      let ofs : Int := (s.byteIndex : Int) - (PAYLOAD_INDEX : Int)
      if ofs = 0 then skip4 s
      else if ofs = 4 then
        { s with velocity := { s.velocity with north := decode32 s },
                 byteIndex := (s.byteIndex + 4) % 256 }
      else if ofs = 8 then
        { s with velocity := { s.velocity with east := decode32 s },
                 byteIndex := (s.byteIndex + 4) % 256 }
      else if ofs = 12 then skip4 s
      else if ofs = 16 then skip4 s
      else if ofs = 20 then skip4 s
      else if ofs = 24 then
        { s with heading := decode32 s, byteIndex := (s.byteIndex + 4) % 256 }
      else if ofs = 28 then { s with byteIndex := (s.byteIndex + 8) % 256 }
      else if ofs = 32 then skip4 s
      else s
    else { s with byteIndex := s.messageLength }
  else { s with byteIndex := s.messageLength }

/-- parseMessage from Gps.c: processes one payload field per call while
the cursor is before the checksum, then clears hasNewMessage. -/
def parseMessage (s : GpsState) : GpsState :=
  if s.byteIndex < s.messageLength - CHECKSUM_BYTES then parsePayloadField s
  else { s with hasNewMessage := false }

/-- GPS_runSM from Gps.c: one scheduler tick of the state machine.
timerExpired stands for Timer_isExpired(TIMER_GPS) of the external
Timer module; when it is true the connected flag is cleared at the end
of the tick. -/
def GPS_runSM (timerExpired : Bool) (s : GpsState) : GpsState :=
  let s1 :=
    match s.state with
    | PState.idle => if hasNewByte s then startReadState s else s
    | PState.read =>
      let s2 :=
        if hasNewByte s then
          match readMessageByte s with
          | (true, s3) => s3
          | (false, s3) => startIdleState s3
        else s
      if s2.hasNewMessage then startParseState s2 else s2
    | PState.parse => if s.hasNewMessage then parseMessage s else startIdleState s
  if timerExpired then { s1 with isConnected := false } else s1

/-- Runs n scheduler ticks with the GPS timeout never firing. -/
def runN : Nat → GpsState → GpsState
  | 0, s => s
  | n + 1, s => runN n (GPS_runSM false s)

/-- The state after GPS_init: the C static initializers of Gps.c
followed by startIdleState, with the given bytes waiting in the UART
queue. -/
def initGpsState (input : List Nat) : GpsState :=
  { input := input, state := PState.idle, rawMessage := fun _ => 0,
    byteIndex := 0, messageLength := LENGTH2_INDEX + 1, messageClass := 0,
    messageId := 0, gpsStatus := NOFIX_STATUS, hasNewMessage := false,
    isConnected := false, isUsingError := false, hasPosition := false,
    heading := 0, geodetic := ⟨0, 0, 0⟩, velocity := ⟨0, 0⟩, error := ⟨0, 0⟩ }

/-- GPS_getLatitude from Gps.c, up to the final division by 1e7 that
converts to floating point at the external API edge: the int32 value
the accessor scales. -/
def GPS_getLatitude (s : GpsState) : Int :=
  if s.isUsingError then s.geodetic.latitude - s.error.latitude else s.geodetic.latitude

/-- GPS_getLongitude from Gps.c, up to the final division by 1e7. -/
def GPS_getLongitude (s : GpsState) : Int :=
  if s.isUsingError then s.geodetic.longitude - s.error.longitude else s.geodetic.longitude

/-- GPS_getAltitude from Gps.c, up to the final division by 1000. -/
def GPS_getAltitude (s : GpsState) : Int :=
  s.geodetic.altitude

/-- GPS_setLongitudeError from Gps.c. -/
def GPS_setLongitudeError (v : Int) (s : GpsState) : GpsState :=
  { s with error := { s.error with longitude := v } }

/-- GPS_setLatitudeError from Gps.c. -/
def GPS_setLatitudeError (v : Int) (s : GpsState) : GpsState :=
  { s with error := { s.error with latitude := v } }

/-- GPS_enableErrorCorrection from Gps.c. -/
def GPS_enableErrorCorrection (s : GpsState) : GpsState :=
  { s with isUsingError := true }

/-- GPS_disableErrorCorrection from Gps.c. -/
def GPS_disableErrorCorrection (s : GpsState) : GpsState :=
  { s with isUsingError := false }

/-- GPS_hasFix from Gps.c. -/
def GPS_hasFix (s : GpsState) : Bool :=
  s.gpsStatus ≠ NOFIX_STATUS

/-- GPS_hasPosition from Gps.c. -/
def GPS_hasPosition (s : GpsState) : Bool :=
  s.hasPosition

/-- The NAV-POSLLH frame of claim C1: sync bytes, class 1, id 2,
payload length 28 little-endian, 28 payload bytes carrying longitude
1234567 at payload offset 4, latitude 7654321 at offset 8 and altitude
1000 at offset 16, then two checksum bytes. -/
def frameC1 : List Nat :=
  [0xB5, 0x62, 0x01, 0x02, 28, 0,
   0, 0, 0, 0,
   0x87, 0xD6, 0x12, 0x00,
   0xB1, 0xCB, 0x74, 0x00,
   0, 0, 0, 0,
   0xE8, 0x03, 0x00, 0x00,
   0, 0, 0, 0, 0, 0, 0, 0,
   0x11, 0x22]

/-- A UBX header declaring the 16-bit little-endian payload length 256
(low byte 0, high byte 1), for the length computation of claim C3. -/
def headerC3 : List Nat :=
  [0xB5, 0x62, 0x01, 0x02, 0x00, 0x01]

/-- A NAV-POSLLH frame with declared payload length 10 and the given
second checksum byte: valid sync bytes and a length field consistent
with the actual 10 payload plus 2 checksum bytes. -/
def frameShort (ck2 : Nat) : List Nat :=
  [0xB5, 0x62, 0x01, 0x02, 0x0A, 0x00,
   0, 0, 0, 0,
   1, 0, 0, 0,
   2, 3,
   0, ck2]

/-- A NAV-POSLLH frame shape with symbolic payload bytes p 0 .. p 27
and symbolic checksum bytes c1, c2. -/
def frame28 (p : Nat → Nat) (c1 c2 : Nat) : List Nat :=
  [0xB5, 0x62, 0x01, 0x02, 28, 0,
   p 0, p 1, p 2, p 3, p 4, p 5, p 6, p 7, p 8, p 9,
   p 10, p 11, p 12, p 13, p 14, p 15, p 16, p 17, p 18, p 19,
   p 20, p 21, p 22, p 23, p 24, p 25, p 26, p 27,
   c1, c2]

/-- A UBX frame of arbitrary class c, id i, length bytes a (low) and b
(high), payload byte list and two checksum bytes, under the valid sync
markers. -/
def genFrame (c i a b : Nat) (payload : List Nat) (ck1 ck2 : Nat) : List Nat :=
  0xB5 :: 0x62 :: c :: i :: a :: b :: (payload ++ [ck1, ck2])

/-- The scheduler tick at which a frame whose length bytes are a (low)
and b (high) is marked complete: one IDLE tick plus one tick per byte
consumed, up to the byte at which the cursor reaches the (uint8_t
truncated) total length; it depends only on the length bytes, never on
the payload or checksum byte values. -/
def completionTick (a b : Nat) : Nat :=
  1 + max 7 ((a + 256 * b + 8) % 256)

/-- A 20-byte frame shape whose first byte is 0 (not the sync marker)
but whose tail embeds a complete NAV-STATUS frame with declared payload
length 5 and fix byte 3: outer header [0,0,0,0,12,0], 12 payload bytes,
2 checksum bytes. -/
def frameC8 : List Nat :=
  [0, 0, 0, 0, 12, 0,
   0, 0xB5, 0x62, 0x01, 0x03, 0x05, 0x00,
   0, 0, 0, 0, 3,
   0, 0]

/-- A GPS state with error correction enabled, stored latitude 10 and
longitude 20, and error offsets 3 and 5, for claim C7. -/
def gpsErrState : GpsState :=
  { (initGpsState []) with
      isUsingError := true, geodetic := ⟨10, 20, 0⟩, error := ⟨3, 5⟩ }

/-- The NavigationState fields named by claim C8: position, velocity,
heading, fix status and the position-obtained flag agree between two
parser states. -/
def NavEq (a b : GpsState) : Prop :=
  a.geodetic = b.geodetic ∧ a.velocity = b.velocity ∧ a.heading = b.heading ∧
    a.gpsStatus = b.gpsStatus ∧ a.hasPosition = b.hasPosition

/-! ## Definitions: CommandProtocol, the MAVLink layer of Mavlink.c -/

/-- MAVLINK_MSG_ID_START_RESCUE from the generated START_RESCUE header. -/
def MAVLINK_MSG_ID_START_RESCUE : Nat := 241

/-- Modelled from the spec: the numeric id of the generic acknowledgment
message lives in the generated MAVLink headers, which are not among the
sources; only its distinctness matters to the claims. -/
def MAVLINK_MSG_ID_MAVLINK_ACK : Nat := 248

/-- Modelled from the spec: the message-name code for the rescue-start
command used in acknowledgment frames, defined in the MAVLink headers
outside the sources; only its identity matters to the claims. -/
def messageName_start_rescue : Nat := 241

/-- Modelled from the spec: the radio channel identifier XBEE_UART_ID
of the Xbee header, outside the sources. -/
def XBEE_UART_ID : Nat := 1

/-- The mavlink_start_rescue_t payload struct of the generated
START_RESCUE header: uint32 latitude and longitude, uint8 ack and
status. -/
structure StartRescueData where
  latitude : Nat
  longitude : Nat
  ack : Nat
  status : Nat
deriving DecidableEq

/-- The decoded generic acknowledgment payload, carrying the name of
the acknowledged message. -/
structure MavlinkAckData where
  Message_Name : Nat
deriving DecidableEq

/-- The ACK_status values of the PendingAck record. -/
inductive AckStatus where
  | NONE : AckStatus
  | WAIT : AckStatus
  | RECIEVED : AckStatus
deriving DecidableEq

/-- An observable effect of the command layer: bytes enqueued on an
outbound channel, or decoded rescue coordinates routed to the position
consumer, or a heartbeat routed to its handler. -/
inductive MavEvent where
  | sent (uart_id : Nat) (bytes : List Nat) : MavEvent
  | routedStartRescue (latitude longitude : Nat) : MavEvent
  | routedHeartbeat (data : Nat) : MavEvent
deriving DecidableEq

/-- The mutable state of Mavlink.c: the PendingAck record (ACK_status,
last_buf, last_length, last_uart_id of the start_rescue ACK struct)
plus the trace of emitted events, in order. -/
structure MavState where
  ACK_status : AckStatus
  last_buf : List Nat
  last_length : Nat
  last_uart_id : Nat
  events : List MavEvent

/-- Little-endian 4-byte encoding of a 32-bit value. -/
def le32 (n : Nat) : List Nat :=
  [n % 256, n / 256 % 256, n / 65536 % 256, n / 16777216 % 256]

/-- Modelled from the spec: mavlink_finalize_message and
mavlink_msg_to_send_buffer wrap a payload in the generic
length-prefixed checksummed framing defined outside the sources; the
claims depend only on the encoded bytes being carried verbatim, so the
frame is modelled as the message id followed by the payload. -/
def mavlink_encode (msgid : Nat) (payload : List Nat) : List Nat :=
  msgid :: payload

/-- The encoded rescue-start frame: the payload layout of the generated
START_RESCUE header (latitude at offset 0, longitude at 4, ack at 8,
status at 9) under the generic framing. -/
def mavlink_msg_start_rescue_buffer (ack status latitude longitude : Nat) : List Nat :=
  mavlink_encode MAVLINK_MSG_ID_START_RESCUE
    (le32 latitude ++ le32 longitude ++ [ack % 256, status % 256])

/-- The encoded acknowledgment frame naming the acknowledged message. -/
def mavlink_msg_ack_buffer (name : Nat) : List Nat :=
  mavlink_encode MAVLINK_MSG_ID_MAVLINK_ACK [name % 256]

/-- Modelled from the spec: UART_putString enqueues the bytes on the
outbound queue of the channel; recorded here as a sent event. -/
def UART_putString (uart_id : Nat) (bytes : List Nat) (s : MavState) : MavState :=
  { s with events := s.events ++ [MavEvent.sent uart_id bytes] }

/-- Mavlink_send_ACK from Mavlink.c: packs an acknowledgment frame for
the given message name and enqueues it on the channel. -/
def Mavlink_send_ACK (uart_id : Nat) (name : Nat) (s : MavState) : MavState :=
  UART_putString uart_id (mavlink_msg_ack_buffer name) s

/-- Mavlink_send_start_rescue from Mavlink.c: packs and enqueues the
rescue-start frame; when ack is TRUE (1) it also records the PendingAck
data: status WAIT, the exact encoded bytes, their length and the
destination channel. -/
def Mavlink_send_start_rescue (uart_id ack status latitude longitude : Nat)
    (s : MavState) : MavState :=
  let buf := mavlink_msg_start_rescue_buffer ack status latitude longitude
  let s1 := UART_putString uart_id buf s
  if ack = 1 then
    { s1 with ACK_status := AckStatus.WAIT, last_buf := buf,
              last_length := buf.length, last_uart_id := uart_id }
  else s1

/-- Mavlink_recieve_ACK from Mavlink.c: an acknowledgment naming the
rescue-start command sets the PendingAck status to RECIEVED; any other
name falls through the switch. -/
def Mavlink_recieve_ACK (packet : MavlinkAckData) (s : MavState) : MavState :=
  if packet.Message_Name = messageName_start_rescue then
    { s with ACK_status := AckStatus.RECIEVED }
  else s

/-- Compas_recieve_start_rescue from Mavlink.c: the position consumer
receiving the decoded rescue coordinates, recorded as a routing event. -/
def Compas_recieve_start_rescue (packet : StartRescueData) (s : MavState) : MavState :=
  { s with events := s.events ++
      [MavEvent.routedStartRescue packet.latitude packet.longitude] }

/-- Mavlink_resend_message from Mavlink.c: retransmits the stored bytes
on the stored channel and re-arms the WAIT status. -/
def Mavlink_resend_message (s : MavState) : MavState :=
  let s1 := UART_putString s.last_uart_id (s.last_buf.take s.last_length) s
  { s1 with ACK_status := AckStatus.WAIT }

/-- A message decoded by the generic framer, as dispatched by the
switch of Mavlink_recieve. -/
inductive MavMsg where
  | xbeeHeartbeat (data : Nat) : MavMsg
  | startRescue (d : StartRescueData) : MavMsg
  | mavlinkAck (d : MavlinkAckData) : MavMsg
  | unknown (msgid : Nat) : MavMsg

/-- Modelled from the spec: the heartbeat handler of the Xbee module,
outside the sources, recorded as a routing event. -/
def Xbee_recieved_message_heartbeat (data : Nat) (s : MavState) : MavState :=
  { s with events := s.events ++ [MavEvent.routedHeartbeat data] }

/-- The dispatch switch inside the receive loop of Mavlink_recieve: a
rescue-start whose ack field is TRUE (1) first sends an acknowledgment
naming the rescue-start message on the radio channel and then routes
the coordinates; otherwise the coordinates are routed directly.
Acknowledgments go to Mavlink_recieve_ACK; unknown ids are dropped. -/
def handleMessage (m : MavMsg) (s : MavState) : MavState :=
  match m with
  | MavMsg.xbeeHeartbeat d => Xbee_recieved_message_heartbeat d s
  | MavMsg.startRescue d =>
      let s1 :=
        if d.ack = 1 then Mavlink_send_ACK XBEE_UART_ID messageName_start_rescue s
        else s
      Compas_recieve_start_rescue d s1
  | MavMsg.mavlinkAck d => Mavlink_recieve_ACK d s
  | MavMsg.unknown _ => s

/-- Mavlink_recieve from Mavlink.c: drains the inbound queue through
the generic framer and dispatches each fully decoded message in order. -/
def Mavlink_recieve (msgs : List MavMsg) (s : MavState) : MavState :=
  msgs.foldl (fun s m => handleMessage m s) s

/-- The zero-initialized command-layer state. -/
def mavInit : MavState :=
  { ACK_status := AckStatus.NONE, last_buf := [], last_length := 0,
    last_uart_id := 0, events := [] }

/-! ## Theorems: the ByteQueue claims -/

theorem readFront_empty {q : CircBuffer} (h : getLength q = 0) :
    readFront q = (128, q) := by
  unfold readFront
  rw [h]
  simp

theorem popIter_empty {q : CircBuffer} (h : getLength q = 0) :
    ∀ n, popIter n q = q := by
  intro n
  induction n with
  | zero => rfl
  | succ n ih =>
    show popIter n (readFront q).2 = q
    rw [readFront_empty h]
    exact ih

/-- Claim C9: calling pop on an empty ByteQueue any number of times in
succession leaves the whole queue state (in particular head and tail)
exactly as it was, and each call reports empty by returning the 128
sentinel that readFront uses for an empty buffer. -/
theorem pop_empty_idempotent (q : CircBuffer) (n : Nat) (h : getLength q = 0) :
    popIter n q = q ∧ readFront (popIter n q) = (128, q) := by
  have hq := popIter_empty h n
  refine ⟨hq, ?_⟩
  rw [hq]
  exact readFront_empty h

/-- Witness for claim C9 at the freshly initialized queue and three
successive pops. -/
theorem pop_empty_idempotent_witness :
    popIter 3 newCircBuffer = newCircBuffer ∧
      readFront (popIter 3 newCircBuffer) = (128, newCircBuffer) :=
  pop_empty_idempotent newCircBuffer 3 (by decide)

/-- Counterexample to claim C2 as stated: the claim says push returns
false when the queue is full and true when it is not, but writeBack
returns 0 on both paths (the distinguishing return statements are
commented out in Serial.c).  On the concrete full queue and on the
concrete empty queue the return values coincide, while the empty-queue
push really does store the byte (tail advances), so no reading of the
return value as a boolean can satisfy the claim. -/
theorem writeBack_return_value_counterexample :
    getLength fullQueue = fullQueue.size - 1 ∧
      getLength newCircBuffer ≠ newCircBuffer.size - 1 ∧
      (writeBack fullQueue 7).1 = 0 ∧
      (writeBack newCircBuffer 7).1 = 0 ∧
      (writeBack newCircBuffer 7).2.tail = 1 ∧
      (writeBack fullQueue 7).2.overflowCount = 1 := by
  refine ⟨by decide, by decide, ?_, ?_, ?_, ?_⟩ <;> decide

/-- After pushing a list of bytes into a queue with head 0 and no prior
overflow, as long as the bytes fit, tail moves forward by one per byte
and no overflow is recorded. -/
theorem pushAll_fresh :
    ∀ (bs : List Nat) (q : CircBuffer), q.size = QUEUESIZE → q.head = 0 →
      q.overflowCount = 0 → q.tail + bs.length ≤ QUEUESIZE - 1 →
      (pushAll bs q).size = QUEUESIZE ∧ (pushAll bs q).head = 0 ∧
        (pushAll bs q).overflowCount = 0 ∧ (pushAll bs q).tail = q.tail + bs.length := by
  intro bs
  induction bs with
  | nil =>
    intro q hs hh ho ht
    exact ⟨hs, hh, ho, by simp [pushAll]⟩
  | cons b bs ih =>
    intro q hs hh ho ht
    have hlen : getLength q = q.tail := by
      unfold getLength
      rw [hh]
      simp
    have hnotfull : ¬ getLength q = q.size - 1 := by
      rw [hlen, hs]
      simp only [List.length_cons, QUEUESIZE] at ht ⊢
      omega
    have hstep : (writeBack q b).2 =
        { q with buffer := updFn q.buffer q.tail b,
                 tail := if q.tail < q.size - 1 then q.tail + 1 else 0 } := by
      unfold writeBack
      rw [if_neg hnotfull]
    have htail : (writeBack q b).2.tail = q.tail + 1 := by
      rw [hstep]
      simp only
      rw [if_pos]
      rw [hs]
      simp only [List.length_cons, QUEUESIZE] at ht ⊢
      omega
    have hrun : pushAll (b :: bs) q = pushAll bs (writeBack q b).2 := rfl
    rw [hrun]
    have hq2 := ih (writeBack q b).2 (by rw [hstep]; exact hs) (by rw [hstep]; exact hh)
      (by rw [hstep]; exact ho)
      (by rw [htail]; simp only [List.length_cons, QUEUESIZE] at ht ⊢; omega)
    refine ⟨hq2.1, hq2.2.1, hq2.2.2.1, ?_⟩
    rw [hq2.2.2.2, htail]
    simp only [List.length_cons]
    omega

/-- Claim C2 (amended): pushing into a full queue (length = size - 1)
returns 0, increments the uint8_t overflow counter modulo 256, and
leaves the stored bytes, head and tail unchanged; pushing into a
non-full queue also returns 0, stores the byte at tail and advances
tail modulo the capacity.  The return value is 0 in both cases and so
does not distinguish overflow from success.  Pushing capacity bytes
into the fresh empty queue records exactly one overflow and leaves the
length at capacity - 1. -/
theorem writeBack_contract_amended :
    (∀ (q : CircBuffer) (d : Nat), q.tail < q.size →
      (getLength q = q.size - 1 →
        (writeBack q d).1 = 0 ∧
          (writeBack q d).2.overflowCount = (q.overflowCount + 1) % 256 ∧
          (writeBack q d).2.buffer = q.buffer ∧
          (writeBack q d).2.tail = q.tail ∧ (writeBack q d).2.head = q.head) ∧
      (getLength q ≠ q.size - 1 →
        (writeBack q d).1 = 0 ∧
          (writeBack q d).2.buffer = updFn q.buffer q.tail d ∧
          (writeBack q d).2.tail = (q.tail + 1) % q.size ∧
          (writeBack q d).2.head = q.head ∧
          (writeBack q d).2.overflowCount = q.overflowCount)) ∧
    (∀ bs : List Nat, bs.length = QUEUESIZE →
      (pushAll bs newCircBuffer).overflowCount = 1 ∧
        getLength (pushAll bs newCircBuffer) = QUEUESIZE - 1) := by
  constructor
  · intro q d htq
    constructor
    · intro hfull
      unfold writeBack
      rw [if_pos hfull]
      exact ⟨rfl, rfl, rfl, rfl, rfl⟩
    · intro hnf
      unfold writeBack
      rw [if_neg hnf]
      refine ⟨rfl, rfl, ?_, rfl, rfl⟩
      simp only
      by_cases hlt : q.tail < q.size - 1
      · rw [if_pos hlt, Nat.mod_eq_of_lt (by omega)]
      · rw [if_neg hlt]
        have : q.tail + 1 = q.size := by omega
        rw [this, Nat.mod_self]
  · intro bs hlen
    have hsplit : bs = bs.take (QUEUESIZE - 1) ++ bs.drop (QUEUESIZE - 1) :=
      (List.take_append_drop _ bs).symm
    have hlt : (bs.take (QUEUESIZE - 1)).length = QUEUESIZE - 1 := by
      rw [List.length_take, hlen]
      decide
    have hld : (bs.drop (QUEUESIZE - 1)).length = 1 := by
      rw [List.length_drop, hlen]
      decide
    obtain ⟨b, hb⟩ := List.length_eq_one.mp hld
    have hfold : pushAll bs newCircBuffer =
        pushAll (bs.drop (QUEUESIZE - 1)) (pushAll (bs.take (QUEUESIZE - 1)) newCircBuffer) := by
      conv_lhs => rw [hsplit]
      unfold pushAll
      rw [List.foldl_append]
    have h1 := pushAll_fresh (bs.take (QUEUESIZE - 1)) newCircBuffer rfl rfl rfl
      (by rw [hlt]; simp [newCircBuffer])
    set q1 := pushAll (bs.take (QUEUESIZE - 1)) newCircBuffer with hq1
    have hg1 : getLength q1 = QUEUESIZE - 1 := by
      unfold getLength
      rw [h1.2.1, h1.2.2.2, hlt]
      simp [newCircBuffer]
    have hfull : getLength q1 = q1.size - 1 := by
      rw [hg1, h1.1]
    have hlast : pushAll (bs.drop (QUEUESIZE - 1)) q1 = (writeBack q1 b).2 := by
      rw [hb]
      rfl
    have hwb : (writeBack q1 b).2 = { q1 with overflowCount := (q1.overflowCount + 1) % 256 } := by
      unfold writeBack
      rw [if_pos hfull]
    rw [hfold, hlast, hwb]
    constructor
    · simp only
      rw [h1.2.2.1]
    · unfold getLength
      simp only
      rw [h1.2.1, h1.2.2.2, h1.1, hlt]
      simp [newCircBuffer]

/-- Witness for claim C2 (amended) at the fresh queue and at a concrete
list of 512 bytes. -/
theorem writeBack_contract_amended_witness :
    ((List.replicate QUEUESIZE 7).length = QUEUESIZE ∧
      (pushAll (List.replicate QUEUESIZE 7) newCircBuffer).overflowCount = 1) ∧
    (newCircBuffer.tail < newCircBuffer.size ∧
      getLength newCircBuffer ≠ newCircBuffer.size - 1 ∧
      (writeBack newCircBuffer 9).2.tail = (newCircBuffer.tail + 1) % newCircBuffer.size) := by
  refine ⟨⟨by simp, ?_⟩, by decide, by decide, ?_⟩
  · exact (writeBack_contract_amended.2 (List.replicate QUEUESIZE 7) (by simp)).1
  · exact ((writeBack_contract_amended.1 newCircBuffer 9 (by decide)).2 (by decide)).2.2.1

theorem nthByte_append_left :
    ∀ (l l2 : List Nat) (i : Nat), i < l.length → nthByte (l ++ l2) i = nthByte l i := by
  intro l
  induction l with
  | nil => intro l2 i hi; simp at hi
  | cons a t ih =>
    intro l2 i hi
    cases i with
    | zero => rfl
    | succ j =>
      show nthByte (t ++ l2) j = nthByte t j
      exact ih l2 j (by simp at hi; omega)

theorem nthByte_append_len :
    ∀ (l : List Nat) (b : Nat), nthByte (l ++ [b]) l.length = b := by
  intro l
  induction l with
  | nil => intro b; rfl
  | cons a t ih => intro b; exact ih b

theorem getLength_Rinv {q : CircBuffer} {l : List Nat} (h : Rinv q l) :
    getLength q = l.length := by
  obtain ⟨hs, hh, ht, hl, _, _⟩ := h
  unfold getLength
  rw [hs]
  simp only [QUEUESIZE] at hh ht hl ⊢
  split <;> omega

theorem Rinv_writeBack {q : CircBuffer} {l : List Nat} (b : Nat)
    (h : Rinv q l) (hlen : l.length + 1 ≤ QUEUESIZE - 1) :
    Rinv (writeBack q b).2 (l ++ [b]) := by
  have hg := getLength_Rinv h
  obtain ⟨hs, hh, ht, hl, ho, hb⟩ := h
  have htq : q.tail < QUEUESIZE := by
    rw [ht]
    exact Nat.mod_lt _ (by decide)
  have hnotfull : ¬ getLength q = q.size - 1 := by
    rw [hg, hs]
    simp only [QUEUESIZE] at hlen ⊢
    omega
  have hstep : (writeBack q b).2 =
      { q with buffer := updFn q.buffer q.tail b,
               tail := if q.tail < q.size - 1 then q.tail + 1 else 0 } := by
    unfold writeBack
    rw [if_neg hnotfull]
  rw [hstep]
  refine ⟨hs, hh, ?_, ?_, ho, ?_⟩
  · simp only [List.length_append, List.length_cons, List.length_nil]
    rw [hs]
    simp only [QUEUESIZE] at ht hh hl ⊢
    split <;> omega
  · simp only [List.length_append, List.length_cons, List.length_nil]
    omega
  · intro i hi
    simp only [List.length_append, List.length_cons, List.length_nil] at hi
    simp only
    by_cases hcase : i < l.length
    · have hne : (q.head + i) % QUEUESIZE ≠ q.tail := by
        rw [ht]
        intro hcontra
        simp only [QUEUESIZE] at hcontra hh hl hcase ⊢
        omega
      unfold updFn
      rw [if_neg hne]
      rw [hb i hcase, nthByte_append_left l [b] i hcase]
    · have hieq : i = l.length := by omega
      subst hieq
      have heq : (q.head + l.length) % QUEUESIZE = q.tail := ht.symm
      unfold updFn
      rw [if_pos heq, nthByte_append_len]

theorem Rinv_readFront {q : CircBuffer} {b : Nat} {l : List Nat}
    (h : Rinv q (b :: l)) :
    (readFront q).1 = b ∧ Rinv (readFront q).2 l := by
  have hg := getLength_Rinv h
  obtain ⟨hs, hh, ht, hl, ho, hb⟩ := h
  simp only [List.length_cons] at hg ht hl
  have hpos : getLength q > 0 := by omega
  have hread : readFront q =
      (q.buffer q.head,
        { q with head := if q.head < q.size - 1 then q.head + 1 else 0 }) := by
    unfold readFront
    rw [if_pos hpos]
  have hval : q.buffer q.head = b := by
    have h0 := hb 0 (by simp)
    have : (q.head + 0) % QUEUESIZE = q.head := by
      simp only [Nat.add_zero]
      exact Nat.mod_eq_of_lt hh
    rw [this] at h0
    exact h0
  have hhead : (if q.head < q.size - 1 then q.head + 1 else 0) = (q.head + 1) % QUEUESIZE := by
    rw [hs]
    simp only [QUEUESIZE] at hh ⊢
    split <;> omega
  constructor
  · rw [hread]
    exact hval
  · rw [hread]
    refine ⟨hs, ?_, ?_, by omega, ho, ?_⟩
    · simp only [hhead]
      exact Nat.mod_lt _ (by decide)
    · simp only [hhead]
      simp only [QUEUESIZE] at ht ⊢
      omega
    · intro i hi
      simp only [hhead]
      have hrec := hb (i + 1) (by simp; omega)
      have hidx : ((q.head + 1) % QUEUESIZE + i) % QUEUESIZE = (q.head + (i + 1)) % QUEUESIZE := by
        simp only [QUEUESIZE]
        omega
      rw [hidx, hrec]
      rfl

theorem runOps_sim :
    ∀ (ops : List Op) (q : CircBuffer) (l : List Nat), Rinv q l →
      legalOps l.length ops = true →
      (∃ lf, Rinv (runOps q ops).1 lf) ∧
        (runOps q ops).2 = List.take (popCount ops) (l ++ pushedBytes ops) := by
  intro ops
  induction ops with
  | nil =>
    intro q l hR _
    exact ⟨⟨l, hR⟩, by simp [runOps, popCount]⟩
  | cons op rest ih =>
    intro q l hR hleg
    cases op with
    | push b =>
      have hleg2 : (decide (l.length + 1 ≤ QUEUESIZE - 1) && legalOps (l.length + 1) rest) = true := hleg
      rw [Bool.and_eq_true, decide_eq_true_eq] at hleg2
      have hR2 := Rinv_writeBack b hR hleg2.1
      have hlen2 : (l ++ [b]).length = l.length + 1 := by simp
      have hrec := ih (writeBack q b).2 (l ++ [b]) hR2 (by rw [hlen2]; exact hleg2.2)
      have hrun : runOps q (Op.push b :: rest) = runOps (writeBack q b).2 rest := rfl
      rw [hrun]
      refine ⟨hrec.1, ?_⟩
      rw [hrec.2]
      show List.take (popCount rest) ((l ++ [b]) ++ pushedBytes rest) =
        List.take (popCount rest) (l ++ (b :: pushedBytes rest))
      rw [List.append_assoc]
      rfl
    | pop =>
      have hleg2 : (decide (0 < l.length) && legalOps (l.length - 1) rest) = true := hleg
      rw [Bool.and_eq_true, decide_eq_true_eq] at hleg2
      cases l with
      | nil => simp at hleg2
      | cons b t =>
        have hrf := Rinv_readFront hR
        have hrec := ih (readFront q).2 t hrf.2
          (by simpa using hleg2.2)
        refine ⟨hrec.1, ?_⟩
        show (readFront q).1 :: (runOps (readFront q).2 rest).2 =
          List.take (popCount rest + 1) ((b :: t) ++ pushedBytes rest)
        rw [hrf.1, hrec.2]
        rfl

/-- Claim C5: for every interleaved sequence of pushes and pops in
which pops always find a byte and the buffered count never exceeds
capacity - 1, starting from the fresh queue, no overflow is ever
recorded and the pops return exactly the pushed bytes in FIFO order
(the k pops return the first k pushed bytes, in push order). -/
theorem byteQueue_fifo (ops : List Op) (h : legalOps 0 ops = true) :
    (runOps newCircBuffer ops).1.overflowCount = 0 ∧
      (runOps newCircBuffer ops).2 = List.take (popCount ops) (pushedBytes ops) := by
  have hR : Rinv newCircBuffer [] := by
    refine ⟨rfl, by decide, by decide, by decide, rfl, ?_⟩
    intro i hi
    simp at hi
  have hsim := runOps_sim ops newCircBuffer [] hR h
  obtain ⟨⟨lf, hRf⟩, houts⟩ := hsim
  constructor
  · exact hRf.2.2.2.2.1
  · rw [houts]
    simp

/-- Witness for claim C5 at a concrete operation sequence. -/
theorem byteQueue_fifo_witness :
    legalOps 0 [Op.push 3, Op.push 4, Op.pop, Op.push 5, Op.pop, Op.pop] = true ∧
      (runOps newCircBuffer [Op.push 3, Op.push 4, Op.pop, Op.push 5, Op.pop, Op.pop]).1.overflowCount = 0 ∧
      (runOps newCircBuffer [Op.push 3, Op.push 4, Op.pop, Op.push 5, Op.pop, Op.pop]).2 = [3, 4, 5] := by
  refine ⟨by decide, ?_, ?_⟩
  · exact (byteQueue_fifo _ (by decide)).1
  · exact ((byteQueue_fifo _ (by decide)).2).trans (by decide)

/-! ## Theorems: single-tick lemmas for the GPS state machine -/

theorem runN_succ (n : Nat) (s : GpsState) :
    runN (n + 1) s = runN n (GPS_runSM false s) := rfl

theorem runN_zero (s : GpsState) : runN 0 s = s := rfl

theorem updFn_at (f : Nat → Nat) (i v : Nat) : updFn f i v i = v := by
  simp [updFn]

theorem updFn_ne (f : Nat → Nat) (i v j : Nat) (h : j ≠ i) : updFn f i v j = f j := by
  simp [updFn, h]

theorem tick_idle_start (s : GpsState)
    (h1 : s.state = PState.idle) (h2 : s.input.isEmpty = false) :
    GPS_runSM false s =
      { s with state := PState.read, byteIndex := 0,
               messageLength := 6, hasNewMessage := false } := by
  unfold GPS_runSM
  rw [h1]
  simp [hasNewByte, h2, startReadState, PAYLOAD_INDEX]

theorem tick_sync1 (s : GpsState)
    (h1 : s.state = PState.read) (h2 : s.input.isEmpty = false)
    (h3 : s.hasNewMessage = false) (h4 : s.byteIndex = 0)
    (h5 : s.input.headD 0 = 0xB5) :
    GPS_runSM false s =
      { s with input := s.input.tail,
               rawMessage := updFn s.rawMessage 0 0xB5, byteIndex := 1 } := by
  unfold GPS_runSM
  rw [h1]
  cases hin : s.input with
  | nil => rw [hin] at h2; simp at h2
  | cons c rest =>
    rw [hin] at h5
    simp only [List.headD_cons] at h5
    subst h5
    simp [hasNewByte, h1, hin, readMessageByte, h3, h4, bumpIndex, SYNC1_CHAR, startParseState]

theorem tick_sync2 (s : GpsState)
    (h1 : s.state = PState.read) (h2 : s.input.isEmpty = false)
    (h3 : s.hasNewMessage = false) (h4 : s.byteIndex = 1)
    (h5 : s.input.headD 0 = 0x62) :
    GPS_runSM false s =
      { s with input := s.input.tail, rawMessage := updFn s.rawMessage 1 0x62,
               byteIndex := 2, isConnected := true } := by
  unfold GPS_runSM
  rw [h1]
  cases hin : s.input with
  | nil => rw [hin] at h2; simp at h2
  | cons c rest =>
    rw [hin] at h5
    simp only [List.headD_cons] at h5
    subst h5
    simp [hasNewByte, h1, hin, readMessageByte, h3, h4, bumpIndex, setConnected, SYNC2_CHAR,
      startParseState]

theorem tick_class (s : GpsState)
    (h1 : s.state = PState.read) (h2 : s.input.isEmpty = false)
    (h3 : s.hasNewMessage = false) (h4 : s.byteIndex = 2) :
    GPS_runSM false s =
      { s with input := s.input.tail,
               rawMessage := updFn s.rawMessage 2 (s.input.headD 0),
               byteIndex := 3, messageClass := s.input.headD 0 } := by
  unfold GPS_runSM
  rw [h1]
  cases hin : s.input with
  | nil => rw [hin] at h2; simp at h2
  | cons c rest =>
    simp [hasNewByte, h1, hin, readMessageByte, h3, h4, bumpIndex, startParseState]

theorem tick_id (s : GpsState)
    (h1 : s.state = PState.read) (h2 : s.input.isEmpty = false)
    (h3 : s.hasNewMessage = false) (h4 : s.byteIndex = 3) :
    GPS_runSM false s =
      { s with input := s.input.tail,
               rawMessage := updFn s.rawMessage 3 (s.input.headD 0),
               byteIndex := 4, messageId := s.input.headD 0 } := by
  unfold GPS_runSM
  rw [h1]
  cases hin : s.input with
  | nil => rw [hin] at h2; simp at h2
  | cons c rest =>
    simp [hasNewByte, h1, hin, readMessageByte, h3, h4, bumpIndex, startParseState]

theorem tick_len1 (s : GpsState)
    (h1 : s.state = PState.read) (h2 : s.input.isEmpty = false)
    (h3 : s.hasNewMessage = false) (h4 : s.byteIndex = 4) :
    GPS_runSM false s =
      { s with input := s.input.tail,
               rawMessage := updFn s.rawMessage 4 (s.input.headD 0),
               byteIndex := 5, messageLength := s.input.headD 0 % 256 } := by
  unfold GPS_runSM
  rw [h1]
  cases hin : s.input with
  | nil => rw [hin] at h2; simp at h2
  | cons c rest =>
    simp [hasNewByte, h1, hin, readMessageByte, h3, h4, bumpIndex, startParseState]

theorem tick_len2 (s : GpsState)
    (h1 : s.state = PState.read) (h2 : s.input.isEmpty = false)
    (h3 : s.hasNewMessage = false) (h4 : s.byteIndex = 5) :
    GPS_runSM false s =
      { s with input := s.input.tail,
               rawMessage := updFn s.rawMessage 5 (s.input.headD 0),
               byteIndex := 6,
               messageLength :=
                 (s.messageLength + s.input.headD 0 * 256 + 8) % 256 } := by
  unfold GPS_runSM
  rw [h1]
  cases hin : s.input with
  | nil => rw [hin] at h2; simp at h2
  | cons c rest =>
    simp [hasNewByte, h1, hin, readMessageByte, h3, h4, bumpIndex, startParseState,
      PAYLOAD_INDEX, CHECKSUM_BYTES]

theorem tick_payload_byte (s : GpsState)
    (h1 : s.state = PState.read) (h2 : s.input.isEmpty = false)
    (h3 : s.hasNewMessage = false) (h4 : 6 ≤ s.byteIndex)
    (h5 : s.byteIndex < s.messageLength - 1) (h6 : s.byteIndex + 1 < 256) :
    GPS_runSM false s =
      { s with input := s.input.tail,
               rawMessage := updFn s.rawMessage s.byteIndex (s.input.headD 0),
               byteIndex := s.byteIndex + 1 } := by
  obtain ⟨j, hj⟩ : ∃ j, s.byteIndex = j + 6 := ⟨s.byteIndex - 6, by omega⟩
  unfold GPS_runSM
  rw [h1]
  cases hin : s.input with
  | nil => rw [hin] at h2; simp at h2
  | cons c rest =>
    simp only [hasNewByte, hin, List.isEmpty_cons, Bool.not_false, if_true, readMessageByte,
      h3, hj, Bool.false_eq_true, if_false]
    split
    · omega
    · simp [bumpIndex, h1, h3, hj, Nat.mod_eq_of_lt (show j + 6 + 1 < 256 by omega)]

theorem tick_last_byte (s : GpsState)
    (h1 : s.state = PState.read) (h2 : s.input.isEmpty = false)
    (h3 : s.hasNewMessage = false) (h4 : 6 ≤ s.byteIndex)
    (h5 : s.messageLength - 1 ≤ s.byteIndex) :
    GPS_runSM false s =
      { s with state := PState.parse, input := s.input.tail,
               rawMessage := updFn s.rawMessage s.byteIndex (s.input.headD 0),
               byteIndex := 6, hasNewMessage := true } := by
  obtain ⟨j, hj⟩ : ∃ j, s.byteIndex = j + 6 := ⟨s.byteIndex - 6, by omega⟩
  unfold GPS_runSM
  rw [h1]
  cases hin : s.input with
  | nil => rw [hin] at h2; simp at h2
  | cons c rest =>
    simp only [hasNewByte, hin, List.isEmpty_cons, Bool.not_false, if_true, readMessageByte,
      h3, hj, Bool.false_eq_true, if_false]
    split
    · simp [bumpIndex, startParseState, PAYLOAD_INDEX, h1, hj]
    · omega

theorem tick_sync1_fail (s : GpsState)
    (h1 : s.state = PState.read) (h2 : s.input.isEmpty = false)
    (h3 : s.hasNewMessage = false) (h4 : s.byteIndex = 0)
    (h5 : s.input.headD 0 ≠ 0xB5) :
    GPS_runSM false s =
      { s with state := PState.idle, input := s.input.tail,
               rawMessage := updFn s.rawMessage 0 (s.input.headD 0) } := by
  unfold GPS_runSM
  rw [h1]
  cases hin : s.input with
  | nil => rw [hin] at h2; simp at h2
  | cons c rest =>
    rw [hin] at h5
    simp only [List.headD_cons] at h5
    simp [hasNewByte, h1, hin, readMessageByte, h3, h4, h5, SYNC1_CHAR, startIdleState,
      startParseState]

theorem tick_posllh_itow (s : GpsState)
    (h1 : s.state = PState.parse) (h2 : s.hasNewMessage = true)
    (h3 : s.byteIndex < s.messageLength - 2)
    (h4 : s.messageClass = 1) (h5 : s.messageId = 2) (h6 : s.byteIndex = 6) :
    GPS_runSM false s =
      { s with byteIndex := 10 } := by
  have hcond : s.byteIndex < s.messageLength - CHECKSUM_BYTES := by
    simpa [CHECKSUM_BYTES] using h3
  unfold GPS_runSM
  rw [h1]
  simp [parseMessage, parsePayloadField, h1, h2, hcond, h4, h5, h6, NAV_CLASS,
    NAV_POSLLH_ID, PAYLOAD_INDEX, skip4]
  all_goals simp only [CHECKSUM_BYTES] at h3 ⊢
  all_goals omega

theorem tick_posllh_lon (s : GpsState)
    (h1 : s.state = PState.parse) (h2 : s.hasNewMessage = true)
    (h3 : s.byteIndex < s.messageLength - 2)
    (h4 : s.messageClass = 1) (h5 : s.messageId = 2) (h6 : s.byteIndex = 10) :
    GPS_runSM false s =
      { s with geodetic := { s.geodetic with longitude := decode32 s },
               byteIndex := 14 } := by
  have hcond : s.byteIndex < s.messageLength - CHECKSUM_BYTES := by
    simpa [CHECKSUM_BYTES] using h3
  unfold GPS_runSM
  rw [h1]
  simp [parseMessage, parsePayloadField, h1, h2, hcond, h4, h5, h6, NAV_CLASS,
    NAV_POSLLH_ID, PAYLOAD_INDEX, skip4]
  all_goals simp only [CHECKSUM_BYTES] at h3 ⊢
  all_goals omega

theorem tick_posllh_lat (s : GpsState)
    (h1 : s.state = PState.parse) (h2 : s.hasNewMessage = true)
    (h3 : s.byteIndex < s.messageLength - 2)
    (h4 : s.messageClass = 1) (h5 : s.messageId = 2) (h6 : s.byteIndex = 14) :
    GPS_runSM false s =
      { s with geodetic := { s.geodetic with latitude := decode32 s },
               byteIndex := 18 } := by
  have hcond : s.byteIndex < s.messageLength - CHECKSUM_BYTES := by
    simpa [CHECKSUM_BYTES] using h3
  unfold GPS_runSM
  rw [h1]
  simp [parseMessage, parsePayloadField, h1, h2, hcond, h4, h5, h6, NAV_CLASS,
    NAV_POSLLH_ID, PAYLOAD_INDEX, skip4]
  all_goals simp only [CHECKSUM_BYTES] at h3 ⊢
  all_goals omega

theorem tick_posllh_height (s : GpsState)
    (h1 : s.state = PState.parse) (h2 : s.hasNewMessage = true)
    (h3 : s.byteIndex < s.messageLength - 2)
    (h4 : s.messageClass = 1) (h5 : s.messageId = 2) (h6 : s.byteIndex = 18) :
    GPS_runSM false s =
      { s with byteIndex := 22 } := by
  have hcond : s.byteIndex < s.messageLength - CHECKSUM_BYTES := by
    simpa [CHECKSUM_BYTES] using h3
  unfold GPS_runSM
  rw [h1]
  simp [parseMessage, parsePayloadField, h1, h2, hcond, h4, h5, h6, NAV_CLASS,
    NAV_POSLLH_ID, PAYLOAD_INDEX, skip4]
  all_goals simp only [CHECKSUM_BYTES] at h3 ⊢
  all_goals omega

theorem tick_posllh_alt (s : GpsState)
    (h1 : s.state = PState.parse) (h2 : s.hasNewMessage = true)
    (h3 : s.byteIndex < s.messageLength - 2)
    (h4 : s.messageClass = 1) (h5 : s.messageId = 2) (h6 : s.byteIndex = 22) :
    GPS_runSM false s =
      { s with geodetic := { s.geodetic with altitude := decode32 s },
               hasPosition := true, byteIndex := 26 } := by
  have hcond : s.byteIndex < s.messageLength - CHECKSUM_BYTES := by
    simpa [CHECKSUM_BYTES] using h3
  unfold GPS_runSM
  rw [h1]
  simp [parseMessage, parsePayloadField, h1, h2, hcond, h4, h5, h6, NAV_CLASS,
    NAV_POSLLH_ID, PAYLOAD_INDEX, skip4]
  all_goals simp only [CHECKSUM_BYTES] at h3 ⊢
  all_goals omega

theorem tick_posllh_hacc (s : GpsState)
    (h1 : s.state = PState.parse) (h2 : s.hasNewMessage = true)
    (h3 : s.byteIndex < s.messageLength - 2)
    (h4 : s.messageClass = 1) (h5 : s.messageId = 2) (h6 : s.byteIndex = 26) :
    GPS_runSM false s =
      { s with byteIndex := 30 } := by
  have hcond : s.byteIndex < s.messageLength - CHECKSUM_BYTES := by
    simpa [CHECKSUM_BYTES] using h3
  unfold GPS_runSM
  rw [h1]
  simp [parseMessage, parsePayloadField, h1, h2, hcond, h4, h5, h6, NAV_CLASS,
    NAV_POSLLH_ID, PAYLOAD_INDEX, skip4]
  all_goals simp only [CHECKSUM_BYTES] at h3 ⊢
  all_goals omega

theorem tick_posllh_vacc (s : GpsState)
    (h1 : s.state = PState.parse) (h2 : s.hasNewMessage = true)
    (h3 : s.byteIndex < s.messageLength - 2)
    (h4 : s.messageClass = 1) (h5 : s.messageId = 2) (h6 : s.byteIndex = 30) :
    GPS_runSM false s =
      { s with byteIndex := 34 } := by
  have hcond : s.byteIndex < s.messageLength - CHECKSUM_BYTES := by
    simpa [CHECKSUM_BYTES] using h3
  unfold GPS_runSM
  rw [h1]
  simp [parseMessage, parsePayloadField, h1, h2, hcond, h4, h5, h6, NAV_CLASS,
    NAV_POSLLH_ID, PAYLOAD_INDEX, skip4]
  all_goals simp only [CHECKSUM_BYTES] at h3 ⊢
  all_goals omega

theorem tick_parse_done (s : GpsState)
    (h1 : s.state = PState.parse) (h2 : s.hasNewMessage = true)
    (h3 : ¬ s.byteIndex < s.messageLength - 2) :
    GPS_runSM false s = { s with hasNewMessage := false } := by
  have hcond : ¬ s.byteIndex < s.messageLength - CHECKSUM_BYTES := by
    simpa [CHECKSUM_BYTES] using h3
  unfold GPS_runSM
  rw [h1]
  simp [parseMessage, h1, h2, hcond]

theorem tick_parse_to_idle (s : GpsState)
    (h1 : s.state = PState.parse) (h2 : s.hasNewMessage = false) :
    GPS_runSM false s = { s with state := PState.idle } := by
  unfold GPS_runSM
  rw [h1]
  simp [h2, startIdleState]


/-! ## Theorems: the GPS parser claims -/

/-- Claim C1: feeding the parser one byte per scheduler tick from the
IDLE state with the exact NAV-POSLLH frame of frameC1 (sync bytes,
class 1, id 2, length 28, longitude 1234567 at payload offset 4,
latitude 7654321 at offset 8, altitude 1000 at offset 16, two checksum
bytes) ends with stored latitude 7654321, longitude 1234567, altitude
1000 and the position-obtained flag set. -/
theorem gps_posllh_frame_decodes_position :
    (runN 46 (initGpsState frameC1)).geodetic.latitude = 7654321 ∧
      (runN 46 (initGpsState frameC1)).geodetic.longitude = 1234567 ∧
      (runN 46 (initGpsState frameC1)).geodetic.altitude = 1000 ∧
      (runN 46 (initGpsState frameC1)).hasPosition = true ∧
      GPS_hasPosition (runN 46 (initGpsState frameC1)) = true ∧
      (runN 46 (initGpsState frameC1)).state = PState.idle := by
  refine ⟨?_, ?_, ?_, ?_, ?_, ?_⟩ <;> decide

/-- Claim C3: the claim says the total frame length is computed as
payload_length + 6 + 2 for every 16-bit payload length, and the code
comments say the same, but messageLength is a uint8_t, so the high
length byte (shifted left by 8) is discarded by truncation.  Feeding
the header headerC3, whose length bytes at indices 4 and 5 encode the
little-endian payload length 256, leaves messageLength = 8 where the
claim requires 256 + 6 + 2 = 264.  This evaluates the code at the
failing input of the code_bug verdict. -/
theorem ubx_length_truncation_bug :
    nthByte headerC3 4 = 0 ∧ nthByte headerC3 5 = 1 ∧
      0 + 256 * 1 + 6 + 2 = 264 ∧
      (runN 7 (initGpsState headerC3)).messageLength = 8 ∧
      (8 : Nat) ≠ 264 := by
  refine ⟨?_, ?_, ?_, ?_, ?_⟩ <;> decide

/-- Counterexample to claim C6 as stated: the two frames frameShort 0
and frameShort 1 have valid sync bytes and a length field consistent
with their sizes, and differ only in the second checksum byte; both are
accepted as complete, yet the decoded latitudes differ, because for a
NAV-POSLLH frame with declared payload length 10 the latitude field at
payload offset 8 reads the two checksum bytes.  So acceptance is
checksum-independent but decoding is not, for every such short frame. -/
theorem checksum_dependence_counterexample :
    (runN 19 (initGpsState (frameShort 0))).hasNewMessage = true ∧
      (runN 19 (initGpsState (frameShort 1))).hasNewMessage = true ∧
      (runN 24 (initGpsState (frameShort 0))).state = PState.idle ∧
      (runN 24 (initGpsState (frameShort 1))).state = PState.idle ∧
      (runN 24 (initGpsState (frameShort 0))).geodetic.latitude = 770 ∧
      (runN 24 (initGpsState (frameShort 1))).geodetic.latitude = 16777986 ∧
      (770 : Int) ≠ 16777986 := by
  refine ⟨?_, ?_, ?_, ?_, ?_, ?_, ?_⟩ <;> decide

theorem runN_add (m k : Nat) (s : GpsState) : runN (m + k) s = runN m (runN k s) := by
  induction k generalizing s with
  | zero => rfl
  | succ k ih =>
    show runN (m + k + 1) s = runN m (runN (k + 1) s)
    rw [show runN (m + k + 1) s = runN (m + k) (GPS_runSM false s) from rfl]
    rw [ih]
    rfl

/-- The READ loop always terminates in completion: from a read state at
cursor 6 or later with n more ticks to go until the cursor reaches the
end of the (uint8_t) total length, and enough bytes queued, hasNewMessage
is set after n + 1 further ticks, whatever the byte values are. -/
theorem read_completes :
    ∀ (n : Nat) (s : GpsState), s.state = PState.read → s.hasNewMessage = false →
      6 ≤ s.byteIndex → s.messageLength ≤ 255 →
      s.byteIndex + n = max 6 (s.messageLength - 1) →
      n < s.input.length →
      (runN (n + 1) s).hasNewMessage = true := by
  intro n
  induction n with
  | zero =>
    intro s h1 h2 h3 h4 h5 h6
    have hne : s.input.isEmpty = false := by
      cases hin : s.input with
      | nil => rw [hin] at h6; simp at h6
      | cons x xs => simp [hin]
    have hlast : s.messageLength - 1 ≤ s.byteIndex := by omega
    have hstep := tick_last_byte s h1 hne h2 h3 hlast
    show (GPS_runSM false s).hasNewMessage = true
    rw [hstep]
  | succ n ih =>
    intro s h1 h2 h3 h4 h5 h6
    have hne : s.input.isEmpty = false := by
      cases hin : s.input with
      | nil => rw [hin] at h6; simp at h6
      | cons x xs => simp [hin]
    have hlt : s.byteIndex < s.messageLength - 1 := by omega
    have hstep := tick_payload_byte s h1 hne h2 h3 hlt (by omega)
    show (runN (n + 1) (GPS_runSM false s)).hasNewMessage = true
    rw [hstep]
    apply ih
    · exact h1
    · exact h2
    · show 6 ≤ s.byteIndex + 1
      omega
    · exact h4
    · show s.byteIndex + 1 + n = max 6 (s.messageLength - 1)
      omega
    · show n < s.input.tail.length
      rw [List.length_tail]
      omega

/-- Every frame with valid sync bytes and a length field consistent
with its payload is marked complete at completionTick, which depends
only on the length bytes: acceptance is independent of the class, id,
payload and checksum byte values. -/
theorem gps_accepts_any_consistent_frame
    (c i a b : Nat) (payload : List Nat) (ck1 ck2 : Nat)
    (ha : a < 256) (hp : payload.length = a + 256 * b) :
    (runN (completionTick a b)
        (initGpsState (genFrame c i a b payload ck1 ck2))).hasNewMessage = true := by
  have hst : (runN 7 (initGpsState (genFrame c i a b payload ck1 ck2))).state = PState.read := by
    simp [runN_succ, runN_zero, genFrame, initGpsState, LENGTH2_INDEX, NOFIX_STATUS,
      tick_idle_start, tick_sync1, tick_sync2, tick_class, tick_id, tick_len1, tick_len2]
  have hnm : (runN 7 (initGpsState (genFrame c i a b payload ck1 ck2))).hasNewMessage = false := by
    simp [runN_succ, runN_zero, genFrame, initGpsState, LENGTH2_INDEX, NOFIX_STATUS,
      tick_idle_start, tick_sync1, tick_sync2, tick_class, tick_id, tick_len1, tick_len2]
  have hbi : (runN 7 (initGpsState (genFrame c i a b payload ck1 ck2))).byteIndex = 6 := by
    simp [runN_succ, runN_zero, genFrame, initGpsState, LENGTH2_INDEX, NOFIX_STATUS,
      tick_idle_start, tick_sync1, tick_sync2, tick_class, tick_id, tick_len1, tick_len2]
  have hml : (runN 7 (initGpsState (genFrame c i a b payload ck1 ck2))).messageLength =
      (a % 256 + b * 256 + 8) % 256 := by
    simp [runN_succ, runN_zero, genFrame, initGpsState, LENGTH2_INDEX, NOFIX_STATUS,
      tick_idle_start, tick_sync1, tick_sync2, tick_class, tick_id, tick_len1, tick_len2]
  have hin : (runN 7 (initGpsState (genFrame c i a b payload ck1 ck2))).input =
      payload ++ [ck1, ck2] := by
    simp [runN_succ, runN_zero, genFrame, initGpsState, LENGTH2_INDEX, NOFIX_STATUS,
      tick_idle_start, tick_sync1, tick_sync2, tick_class, tick_id, tick_len1, tick_len2]
  have hticks : completionTick a b =
      (max 6 (((a + 256 * b + 8) % 256) - 1) - 6) + 1 + 7 := by
    simp only [completionTick]
    omega
  rw [hticks, runN_add]
  apply read_completes
  · exact hst
  · exact hnm
  · rw [hbi]
  · rw [hml]
    omega
  · rw [hbi, hml]
    omega
  · rw [hin]
    simp only [List.length_append, List.length_cons, List.length_nil, hp]
    omega

set_option maxHeartbeats 12000000 in
/-- Claim C6 (amended): the parser never verifies the checksum.  First
part: every frame with valid sync bytes and a declared length
consistent with its payload — any class, id, length bytes, payload
bytes and checksum bytes — is marked complete, at a tick that depends
only on the length bytes, so acceptance is independent of the two
checksum byte values.  Second part: for NAV-POSLLH frames whose
declared payload length matches the 28-byte message layout, with
arbitrary payload bytes, the parser furthermore returns to IDLE and the
decoded NavigationState fields (position, velocity, heading, fix
status, position-obtained flag) are identical for every two values of
the two trailing checksum bytes; but for recognized frames whose
declared payload length is shorter than the decoded field layout, the
field decoder reads bytes from the checksum region, so decoding can
depend on the checksum bytes there (see the counterexample). -/
theorem ubx_checksum_independence :
    (∀ (c i a b : Nat) (payload : List Nat) (ck1 ck2 : Nat),
      a < 256 → payload.length = a + 256 * b →
      (runN (completionTick a b)
          (initGpsState (genFrame c i a b payload ck1 ck2))).hasNewMessage = true) ∧
    (∀ (p : Nat → Nat) (c1 c2 d1 d2 : Nat),
      (runN 37 (initGpsState (frame28 p c1 c2))).hasNewMessage = true ∧
        (runN 46 (initGpsState (frame28 p c1 c2))).state = PState.idle ∧
        (runN 46 (initGpsState (frame28 p c1 c2))).hasPosition = true ∧
        (runN 46 (initGpsState (frame28 p c1 c2))).geodetic =
          (runN 46 (initGpsState (frame28 p d1 d2))).geodetic ∧
        (runN 46 (initGpsState (frame28 p c1 c2))).velocity =
          (runN 46 (initGpsState (frame28 p d1 d2))).velocity ∧
        (runN 46 (initGpsState (frame28 p c1 c2))).heading =
          (runN 46 (initGpsState (frame28 p d1 d2))).heading ∧
        (runN 46 (initGpsState (frame28 p c1 c2))).gpsStatus =
          (runN 46 (initGpsState (frame28 p d1 d2))).gpsStatus) := by
  constructor
  · intro c i a b payload ck1 ck2 ha hp
    exact gps_accepts_any_consistent_frame c i a b payload ck1 ck2 ha hp
  · intro p c1 c2 d1 d2
    refine ⟨?_, ?_, ?_, ?_, ?_, ?_, ?_⟩ <;>
    simp [runN_succ, runN_zero, frame28, initGpsState, LENGTH2_INDEX, NOFIX_STATUS,
      tick_idle_start, tick_sync1, tick_sync2, tick_class, tick_id, tick_len1, tick_len2,
      tick_payload_byte, tick_last_byte, tick_posllh_itow, tick_posllh_lon, tick_posllh_lat,
      tick_posllh_height, tick_posllh_alt, tick_posllh_hacc, tick_posllh_vacc,
      tick_parse_done, tick_parse_to_idle, decode32, updFn_at, updFn_ne]

/-- Witness for claim C6 (amended): a NAV-STATUS frame (class 1, id 3)
with payload length 16 and checksum bytes 9, 7 is marked complete at
its completion tick 1 + 24 = 25. -/
theorem ubx_checksum_independence_witness :
    (16 : Nat) < 256 ∧
      (List.replicate 16 5).length = 16 + 256 * 0 ∧
      completionTick 16 0 = 25 ∧
      (runN (completionTick 16 0)
          (initGpsState (genFrame 1 3 16 0 (List.replicate 16 5) 9 7))).hasNewMessage =
        true := by
  refine ⟨by decide, by decide, by decide, ?_⟩
  exact ubx_checksum_independence.1 1 3 16 0 (List.replicate 16 5) 9 7
    (by decide) (by decide)

/-- Counterexample to claim C7 as stated: with error correction
enabled, stored latitude 10 and error offset 3, the read accessor
returns 10 - 3 = 7, not the additively-applied 10 + 3 = 13 the claim
requires (and likewise 20 - 5 = 15, not 25, for longitude): the code
subtracts the offset. -/
theorem error_correction_sign_counterexample :
    gpsErrState.isUsingError = true ∧
      gpsErrState.geodetic.latitude = 10 ∧ gpsErrState.error.latitude = 3 ∧
      GPS_getLatitude gpsErrState = 7 ∧ (7 : Int) ≠ 10 + 3 ∧
      gpsErrState.geodetic.longitude = 20 ∧ gpsErrState.error.longitude = 5 ∧
      GPS_getLongitude gpsErrState = 15 ∧ (15 : Int) ≠ 20 + 5 := by
  refine ⟨?_, ?_, ?_, ?_, ?_, ?_, ?_, ?_, ?_⟩ <;> decide

/-- Claim C7 (amended): when error correction is enabled the latitude
and longitude read accessors return the stored position with the
error-correction offset applied subtractively (position minus offset)
before scaling for external consumers; when disabled they return the
stored position unmodified.  Stated on the state reached by decoding
the concrete position frame of claim C1 and then setting the offsets
through the public setters. -/
theorem error_correction_subtractive (e1 e2 : Int) :
    GPS_getLatitude
        (GPS_enableErrorCorrection
          (GPS_setLatitudeError e1
            (GPS_setLongitudeError e2 (runN 46 (initGpsState frameC1))))) =
      7654321 - e1 ∧
    GPS_getLongitude
        (GPS_enableErrorCorrection
          (GPS_setLatitudeError e1
            (GPS_setLongitudeError e2 (runN 46 (initGpsState frameC1))))) =
      1234567 - e2 ∧
    GPS_getLatitude
        (GPS_disableErrorCorrection
          (GPS_enableErrorCorrection
            (GPS_setLatitudeError e1
              (GPS_setLongitudeError e2 (runN 46 (initGpsState frameC1)))))) =
      7654321 ∧
    GPS_getLongitude
        (GPS_disableErrorCorrection
          (GPS_enableErrorCorrection
            (GPS_setLatitudeError e1
              (GPS_setLongitudeError e2 (runN 46 (initGpsState frameC1)))))) =
      1234567 := by
  have hgeo : (runN 46 (initGpsState frameC1)).geodetic = ⟨7654321, 1234567, 1000⟩ := by
    decide
  refine ⟨?_, ?_, ?_, ?_⟩ <;>
  simp [GPS_getLatitude, GPS_getLongitude, GPS_enableErrorCorrection,
    GPS_disableErrorCorrection, GPS_setLatitudeError, GPS_setLongitudeError, hgeo]

theorem gps_reject_byte (s : GpsState)
    (h1 : s.state = PState.idle) (h2 : s.input.isEmpty = false)
    (h3 : s.input.headD 0 ≠ 0xB5) :
    GPS_runSM false (GPS_runSM false s) =
      { s with state := PState.idle, input := s.input.tail,
               rawMessage := updFn s.rawMessage 0 (s.input.headD 0),
               byteIndex := 0, messageLength := 6, hasNewMessage := false } := by
  rw [tick_idle_start s h1 h2]
  rw [tick_sync1_fail _ rfl (by simpa using h2) rfl rfl (by simpa using h3)]

/-- Counterexample to claim C8 as stated: frameC8 is a frame shape
whose first byte is 0, not 0xB5, yet feeding all its bytes changes the
fix status byte from 0 to 3 (and sets the connected flag), because
after the bad first byte is discarded the parser restarts framing on
the remaining bytes, and the tail of the frame embeds a complete
NAV-STATUS message.  The parser does end at IDLE, but the
NavigationState is not untouched. -/
theorem non_sync_frame_counterexample :
    nthByte frameC8 0 = 0 ∧ (0 : Nat) ≠ 0xB5 ∧
      (initGpsState frameC8).gpsStatus = 0 ∧
      (runN 34 (initGpsState frameC8)).gpsStatus = 3 ∧
      (runN 34 (initGpsState frameC8)).state = PState.idle ∧
      (runN 34 (initGpsState frameC8)).input = [] ∧
      GPS_hasFix (runN 34 (initGpsState frameC8)) = true := by
  refine ⟨?_, ?_, ?_, ?_, ?_, ?_, ?_⟩ <;> decide

/-- Claim C8 (amended): a frame whose first byte is not 0xB5 has that
byte consumed and the parser back at IDLE with no NavigationState
change; every later byte is then treated as a fresh potential frame
start.  Consequently, feeding any byte sequence none of whose bytes
equals 0xB5 (two scheduler ticks per byte) leaves the parser at IDLE,
drains the queue, and leaves position, velocity, heading, fix status
and the position-obtained flag unchanged.  If a later byte does equal
0xB5, an embedded valid frame may be parsed and may update
NavigationState. -/
theorem non_sync_bytes_leave_nav_unchanged :
    ∀ (bs : List Nat) (s : GpsState), s.state = PState.idle → s.input = bs →
      (∀ b ∈ bs, b ≠ 0xB5) →
      (runN (2 * bs.length) s).state = PState.idle ∧
        (runN (2 * bs.length) s).input = [] ∧ NavEq (runN (2 * bs.length) s) s := by
  intro bs
  induction bs with
  | nil =>
    intro s h1 h2 h3
    simp only [List.length_nil, Nat.mul_zero, runN_zero]
    exact ⟨h1, h2, rfl, rfl, rfl, rfl, rfl⟩
  | cons b t ih =>
    intro s h1 h2 h3
    have hlen : 2 * (b :: t).length = 2 * t.length + 2 := by
      simp [List.length_cons]
      omega
    have hrw : runN (2 * (b :: t).length) s =
        runN (2 * t.length) (GPS_runSM false (GPS_runSM false s)) := by
      rw [hlen]
      rfl
    have hrej := gps_reject_byte s h1 (by rw [h2]; rfl)
      (by rw [h2]; simpa using h3 b (List.mem_cons_self b t))
    rw [hrw, hrej]
    have hres := ih
      { s with state := PState.idle, input := s.input.tail,
               rawMessage := updFn s.rawMessage 0 (s.input.headD 0),
               byteIndex := 0, messageLength := 6, hasNewMessage := false }
      rfl (by rw [h2]; rfl)
      (fun x hx => h3 x (List.mem_cons_of_mem b hx))
    refine ⟨hres.1, hres.2.1, ?_⟩
    have hnav : NavEq
        { s with state := PState.idle, input := s.input.tail,
                 rawMessage := updFn s.rawMessage 0 (s.input.headD 0),
                 byteIndex := 0, messageLength := 6, hasNewMessage := false } s :=
      ⟨rfl, rfl, rfl, rfl, rfl⟩
    obtain ⟨e1, e2, e3, e4, e5⟩ := hres.2.2
    obtain ⟨f1, f2, f3, f4, f5⟩ := hnav
    exact ⟨e1.trans f1, e2.trans f2, e3.trans f3, e4.trans f4, e5.trans f5⟩

/-- Witness for claim C8 (amended): feeding the two bytes 1, 2 (neither
is 0xB5) from the fresh IDLE state. -/
theorem non_sync_bytes_leave_nav_unchanged_witness :
    (runN 4 (initGpsState [1, 2])).state = PState.idle ∧
      (runN 4 (initGpsState [1, 2])).input = [] ∧
      NavEq (runN 4 (initGpsState [1, 2])) (initGpsState [1, 2]) :=
  non_sync_bytes_leave_nav_unchanged [1, 2] (initGpsState [1, 2]) rfl rfl (by decide)

/-! ## Theorems: the CommandProtocol claims -/

/-- Claim C4: sending a rescue-start command with acknowledgment
requested (ack = TRUE) enqueues the encoded frame, sets the PendingAck
status to WAIT and stores the exact encoded bytes, their length and the
destination channel; receiving a decoded acknowledgment whose message
name is the rescue-start identifier sets the status to RECIEVED; and
calling resend on the state left by the send retransmits exactly the
stored bytes on the stored channel and resets the status to WAIT. -/
theorem mavlink_pending_ack_contract (s s2 : MavState)
    (uart status latitude longitude : Nat) :
    (Mavlink_send_start_rescue uart 1 status latitude longitude s).ACK_status =
        AckStatus.WAIT ∧
      (Mavlink_send_start_rescue uart 1 status latitude longitude s).last_buf =
        mavlink_msg_start_rescue_buffer 1 status latitude longitude ∧
      (Mavlink_send_start_rescue uart 1 status latitude longitude s).last_length =
        (mavlink_msg_start_rescue_buffer 1 status latitude longitude).length ∧
      (Mavlink_send_start_rescue uart 1 status latitude longitude s).last_uart_id =
        uart ∧
      (Mavlink_send_start_rescue uart 1 status latitude longitude s).events =
        s.events ++
          [MavEvent.sent uart (mavlink_msg_start_rescue_buffer 1 status latitude longitude)] ∧
      (Mavlink_recieve_ACK ⟨messageName_start_rescue⟩ s2).ACK_status =
        AckStatus.RECIEVED ∧
      (Mavlink_resend_message
            (Mavlink_send_start_rescue uart 1 status latitude longitude s)).events =
        (Mavlink_send_start_rescue uart 1 status latitude longitude s).events ++
          [MavEvent.sent uart (mavlink_msg_start_rescue_buffer 1 status latitude longitude)] ∧
      (Mavlink_resend_message
            (Mavlink_send_start_rescue uart 1 status latitude longitude s)).ACK_status =
        AckStatus.WAIT := by
  refine ⟨rfl, rfl, rfl, rfl, rfl, ?_, ?_, rfl⟩
  · unfold Mavlink_recieve_ACK
    rw [if_pos rfl]
  · unfold Mavlink_resend_message Mavlink_send_start_rescue UART_putString
    simp [List.take_length]

/-- Claim C10: when the dispatch of the receive loop decodes a
rescue-start frame whose ack field is TRUE (1), it emits the
acknowledgment frame naming the rescue-start message on the radio
channel before the routing of the decoded coordinates to the position
consumer; when the ack field is not TRUE, no acknowledgment is sent and
only the routing event is emitted. -/
theorem rescue_ack_before_route (s : MavState) (d : StartRescueData) :
    (d.ack = 1 →
      (handleMessage (MavMsg.startRescue d) s).events =
        s.events ++
          [MavEvent.sent XBEE_UART_ID (mavlink_msg_ack_buffer messageName_start_rescue),
            MavEvent.routedStartRescue d.latitude d.longitude]) ∧
    (d.ack ≠ 1 →
      (handleMessage (MavMsg.startRescue d) s).events =
        s.events ++ [MavEvent.routedStartRescue d.latitude d.longitude]) := by
  constructor
  · intro h
    simp [handleMessage, h, Mavlink_send_ACK, UART_putString, Compas_recieve_start_rescue]
  · intro h
    simp [handleMessage, h, Compas_recieve_start_rescue]

/-- Witness for claim C10 at concrete decoded rescue-start messages
with the ack flag set and cleared. -/
theorem rescue_ack_before_route_witness :
    (handleMessage (MavMsg.startRescue ⟨11, 22, 1, 0⟩) mavInit).events =
      [MavEvent.sent XBEE_UART_ID (mavlink_msg_ack_buffer messageName_start_rescue),
        MavEvent.routedStartRescue 11 22] ∧
    (handleMessage (MavMsg.startRescue ⟨11, 22, 0, 0⟩) mavInit).events =
      [MavEvent.routedStartRescue 11 22] := by
  constructor
  · exact ((rescue_ack_before_route mavInit ⟨11, 22, 1, 0⟩).1 rfl).trans (by simp [mavInit])
  · exact ((rescue_ack_before_route mavInit ⟨11, 22, 0, 0⟩).2 (by decide)).trans
      (by simp [mavInit])
